import Mathlib

/-!
Shallow embedding of the `spotify-lyrics-test` repository's three Python
scripts, and proofs of the specification claims about them.

Sources embedded:
* `src/scripts/generate_wordcloud.py` — hex color parsing, the random color
  function, the font-discovery fallback chain, and `generate_wordcloud`
  itself (wordcloud-library parameters plus transparent-background
  post-processing).
* `src/scripts/wordcloud_server.py` — the `create_wordcloud` Flask handler.
* `src/icons/create-spotify-icons.py` — the icon generator.

Modelling conventions:
* Python `int` is `Int` (Lean); pixel channel values are `Nat`.
* Python float literals used only as drawing coordinates or tuning
  parameters (`0.6`, `0.5`, `0.4`, ...) are modelled as the exact rationals
  they denote in the source text (`3/5`, `1/2`, `2/5`, ...); no claim
  depends on binary floating-point rounding.
* Calls into external libraries (the wordcloud layout routine, PIL's PNG
  encoder, base64, the filesystem, the network) are abstracted as fields of
  an environment structure; the functions under verification are pure
  functions of their arguments and that environment, returning a trace of
  the external calls they make.
-/

namespace SpotifyLyrics

/-! ### String helpers (Python `in` and slicing) -/

/-- Contiguous-sublist test on character lists. -/
def infixCheck (needle : List Char) : List Char → Bool
  | [] => needle.isEmpty
  | c :: rest => needle.isPrefixOf (c :: rest) || infixCheck needle rest

/-- Python's substring test `needle in hay`. -/
def strContains (hay needle : String) : Bool :=
  infixCheck needle.data hay.data

/-- Python's `s.startswith(pre)`. -/
def strStartsWith (s pre : String) : Bool :=
  pre.data.isPrefixOf s.data

/-- Python slice `s[i:i+2]` on a character list. -/
def slice2 (s : List Char) (i : Nat) : List Char :=
  (s.drop i).take 2

/-! ### `hex_to_rgb` (generate_wordcloud.py lines 27-30)

Python's `int(s, 16)` raises `ValueError` on a string with no hex digits
or a non-hex character; we model the fallible parse with `Option`. The
inputs produced by `hex_to_rgb` are plain hex-digit slices, for which this
is exactly `int(s, 16)`. -/

/-- Value of a single hexadecimal digit, `none` for a non-hex character. -/
def hexDigitVal (c : Char) : Option Nat :=
  if '0' ≤ c ∧ c ≤ '9' then some (c.toNat - '0'.toNat)
  else if 'a' ≤ c ∧ c ≤ 'f' then some (c.toNat - 'a'.toNat + 10)
  else if 'A' ≤ c ∧ c ≤ 'F' then some (c.toNat - 'A'.toNat + 10)
  else none

/-- Python `int(s, 16)` on a plain digit string: fails on the empty string
or on any non-hex character. -/
def parseHex (s : List Char) : Option Nat :=
  if s = [] then none
  else s.foldl (fun acc c => acc.bind fun a => (hexDigitVal c).map fun d => 16 * a + d)
    (some 0)

/-- `hex_to_rgb`: strip leading `#` characters, then parse the three
two-character slices at offsets 0, 2, 4. -/
def hex_to_rgb (hexColor : String) : Option (Nat × Nat × Nat) :=
  let t := hexColor.data.dropWhile (· == '#')
  match parseHex (slice2 t 0), parseHex (slice2 t 2), parseHex (slice2 t 4) with
  | some r, some g, some b => some (r, g, b)
  | _, _, _ => none

/-! ### `create_color_func` (generate_wordcloud.py lines 32-43)

`random.choice(rgb_colors)` draws an index uniformly from
`range(len(rgb_colors))`; we model the random draw as an explicit index
argument `choice`, so uniformity over indices is the model of the
library's uniform choice. The word, font size, position and orientation
arguments are accepted and ignored, as in the source. -/

/-- `rgb_colors = [hex_to_rgb(color) for color in colors]`: the list
comprehension propagates a parse failure (a `ValueError`) as `none`. -/
def rgbColorsOf (colors : List String) : Option (List (Nat × Nat × Nat)) :=
  colors.mapM hex_to_rgb

/-- The inner `color_func`: `random.choice(rgb_colors)` with the random
draw made explicit as `choice`; out-of-range `choice` models the
`IndexError` on an empty list. -/
def color_func (rgbColors : List (Nat × Nat × Nat))
    (word : String) (fontSize : Int) (position : Int × Int) (orientation : Int)
    (choice : Nat) : Option (Nat × Nat × Nat) :=
  rgbColors[choice]?

/-! ### Image model and transparent-background masking
(generate_wordcloud.py lines 217-226) -/

/-- One RGB pixel of `wordcloud.to_image()` (a PIL `RGB` image). -/
structure RGB where
  r : Nat
  g : Nat
  b : Nat
deriving DecidableEq

/-- One RGBA pixel. -/
structure RGBA where
  r : Nat
  g : Nat
  b : Nat
  a : Nat
deriving DecidableEq

/-- An RGB raster, pixels addressed by column and row. -/
structure RGBImage where
  w : Int
  h : Int
  pix : Nat → Nat → RGB

/-- An RGBA raster. -/
structure RGBAImage where
  w : Int
  h : Int
  pix : Nat → Nat → RGBA

/-- A PIL image is either mode `RGB` or mode `RGBA`. -/
inductive PILImage where
  | rgb (img : RGBImage)
  | rgba (img : RGBAImage)

/-- `mask = (r < 10) & (g < 10) & (b < 10)`: the pixel is near-black. -/
def blackMask (p : RGB) : Bool :=
  decide (p.r < 10) && decide (p.g < 10) && decide (p.b < 10)

/-- Lines 220-226: `np.dstack((img_array, np.where(mask, 0, 255)))` —
keep R, G, B and append alpha 0 where the mask holds, 255 elsewhere. -/
def makeTransparent (img : RGBImage) : RGBAImage :=
  { w := img.w, h := img.h
    pix := fun x y =>
      let p := img.pix x y
      { r := p.r, g := p.g, b := p.b, a := if blackMask p then 0 else 255 } }

/-! ### `find_system_font` (generate_wordcloud.py lines 45-130)

The filesystem, `os.path.expanduser`, `platform.system()` and the network
download are abstracted into an environment. A successful
`urllib.request.urlretrieve` writes the file it was asked for, so after a
successful download the local path exists and is returned; a download
failure (the `except` branch) falls through to the OS-specific fallback
list. The `os.makedirs` call only creates the `fonts` directory and does
not create any font file, so it does not affect the chain. -/

structure FontEnv where
  /-- `os.path.exists` at the time of the call. -/
  pathExists : String → Bool
  /-- `os.path.expanduser`. -/
  expanduser : String → String
  /-- `platform.system()`. -/
  system : String
  /-- whether `urllib.request.urlretrieve` of Roboto-Bold succeeds. -/
  downloadOk : Bool
  /-- `local_roboto_bold`: `<project>/fonts/Roboto-Bold.ttf`. -/
  localRobotoBold : String

/-- Lines 68-84: the `roboto_paths` list as constructed (the two `~` paths
are built with `os.path.expanduser` already applied). -/
def robotoPathsRaw (env : FontEnv) : List String :=
  [env.localRobotoBold,
   "/System/Library/Fonts/Supplemental/Roboto-Bold.ttf",
   "/Library/Fonts/Roboto-Bold.ttf",
   env.expanduser "~/Library/Fonts/Roboto-Bold.ttf",
   "/System/Library/Fonts/Supplemental/Roboto-Regular.ttf",
   "/Library/Fonts/Roboto-Regular.ttf",
   env.expanduser "~/.local/share/fonts/Roboto-Bold.ttf",
   "/usr/share/fonts/truetype/roboto/Roboto-Bold.ttf",
   "/usr/share/fonts/TTF/Roboto-Bold.ttf",
   "/usr/share/fonts/truetype/roboto/Roboto-Regular.ttf",
   "C:/Windows/Fonts/roboto-bold.ttf",
   "C:/Windows/Fonts/roboto-regular.ttf"]

/-- Line 87: `expanduser(path) if '~' in str(path) else path`. -/
def robotoPaths (env : FontEnv) : List String :=
  (robotoPathsRaw env).map fun p => if p.contains '~' then env.expanduser p else p

/-- Lines 108-124: the OS-specific fallback font list. -/
def osFallbackPaths (system : String) : List String :=
  if system = "Darwin" then
    ["/System/Library/Fonts/Supplemental/SF-Pro-Display-Medium.otf",
     "/System/Library/Fonts/HelveticaNeue-Medium.ttc"]
  else if system = "Linux" then
    ["/usr/share/fonts/truetype/liberation/LiberationSans-Bold.ttf",
     "/usr/share/fonts/truetype/dejavu/DejaVuSans-Bold.ttf"]
  else if system = "Windows" then
    ["C:/Windows/Fonts/arialbd.ttf", "C:/Windows/Fonts/segoeuib.ttf"]
  else []

/-- `find_system_font`, following the source's control flow. -/
def find_system_font (env : FontEnv) : Option String :=
  if env.pathExists env.localRobotoBold then some env.localRobotoBold
  else
    match (robotoPaths env).find? env.pathExists with
    | some p => some p
    | none =>
      if env.downloadOk then some env.localRobotoBold
      else (osFallbackPaths env.system).find? env.pathExists

/-- The spec's description of the fallback chain (C7), written with
`Option` combinators in the order the claim states it: local file, then
the Roboto candidate list, then the download, then the OS-specific list. -/
def specFontChain (env : FontEnv) : Option String :=
  (if env.pathExists env.localRobotoBold then some env.localRobotoBold else none).orElse
    fun _ => ((robotoPaths env).find? env.pathExists).orElse
      fun _ => (if env.downloadOk then some env.localRobotoBold else none).orElse
        fun _ => (osFallbackPaths env.system).find? env.pathExists

/-! ### `generate_wordcloud` (generate_wordcloud.py lines 133-240)

The external wordcloud layout library, the PNG encoder and base64 are
abstracted into `WCEnv`; the function returns a `WCResult` trace recording
the layout calls made, the resulting image, the save destination and the
return value. -/

/-- The keyword arguments of the `WordCloud(**wordcloud_params)` call
(lines 185-204). The `color_func` closure is represented by the palette it
captures. `repeat` is the library's `repeat` keyword. -/
structure WCParams where
  width : Int
  height : Int
  background_color : String
  max_words : Int
  relative_scaling : ℚ
  /-- the palette captured by `color_func := create_color_func(colors)`. -/
  paletteColors : List String
  prefer_horizontal : ℚ
  min_font_size : Int
  max_font_size : Int
  font_step : Int
  margin : Int
  collocations : Bool
  normalize_plurals : Bool
  repeatWords : Bool
  font_path : Option String
deriving DecidableEq

structure WCEnv where
  /-- result of `find_system_font()`. -/
  fontPath : Option String
  /-- `WordCloud(**params).generate(text).to_image()`: the external layout
  routine, producing an RGB image from the parameters and the text. -/
  layout : WCParams → String → RGBImage
  /-- `image.save(buffer, format='PNG')`: PNG byte encoding. -/
  pngBytes : PILImage → List Nat
  /-- `base64.b64encode(...).decode()`. -/
  b64encode : List Nat → String

/-- Trace of one `generate_wordcloud` call. -/
structure WCResult where
  /-- each invocation of the layout routine, with its parameters and text. -/
  layoutCalls : List (WCParams × String)
  /-- the image produced, if any. -/
  image : Option PILImage
  /-- the path written by `image.save(output_path, ...)`, if any. -/
  savedTo : Option String
  /-- the Python return value (`None` or a base64 string). -/
  ret : Option String

/-- Line 175: the solid-background branch,
`background_color.replace('rgba(','').replace(')','').split(',')[0]
 if 'rgba' in background_color else background_color`. -/
def solidBgColor (background_color : String) : String :=
  if strContains background_color "rgba" then
    ((((background_color.replace "rgba(" "").replace ")" "").splitOn ",").headD "")
  else background_color

/-- `generate_wordcloud`. `colormap` is accepted and unused, as in the
source. Python's `if not lyrics_text or not colors` is emptiness of the
string and of the list. -/
def generate_wordcloud (env : WCEnv)
    (lyrics_text : String) (colors : List String)
    (width : Int := 1920) (height : Int := 1080)
    (background_color : String := "rgba(0,0,0,0)")
    (max_words : Int := 200) (relative_scaling : ℚ := 1/2)
    (colormap : Option String := none)
    (output_path : Option String := none)
    (return_base64 : Bool := false) : WCResult :=
  if lyrics_text = "" ∨ colors = [] then
    { layoutCalls := [], image := none, savedTo := none, ret := none }
  else
    let text := lyrics_text.trim
    let makeTransparentFlag :=
      strStartsWith background_color "rgba" && strContains background_color "0,0,0,0"
    let bg_color := if makeTransparentFlag then "black" else solidBgColor background_color
    let params : WCParams :=
      { width := width, height := height, background_color := bg_color
        max_words := max_words, relative_scaling := relative_scaling
        paletteColors := colors
        prefer_horizontal := 3/5, min_font_size := 40, max_font_size := 300
        font_step := 4, margin := 0, collocations := false
        normalize_plurals := true, repeatWords := true
        font_path := env.fontPath }
    let img0 := env.layout params text
    let image :=
      if makeTransparentFlag then PILImage.rgba (makeTransparent img0)
      else PILImage.rgb img0
    { layoutCalls := [(params, text)]
      image := some image
      savedTo := output_path
      ret := if return_base64 then some (env.b64encode (env.pngBytes image)) else none }

/-! ### `create_wordcloud` handler (wordcloud_server.py lines 20-63)

`request.get_json()` is modelled as an optional record of the JSON fields
the handler reads (`data.get(key, default)` is `Option.getD`). The call to
`generate_wordcloud(..., return_base64=True)` is modelled by a thunk whose
`Except.error e` outcome is a raised exception with message `str(e)`,
caught by the handler's `try/except`; the trace field `genCalls` counts
how many times the generator was invoked. -/

structure ReqData where
  lyrics : Option String
  colors : Option (List String)
  width : Option Int
  height : Option Int
  max_words : Option Int

/-- A `jsonify` response body: either `{'error': msg}` or
`{'success': ..., 'image': ...}`. -/
inductive RespBody where
  | err (msg : String)
  | ok (success : Bool) (image : String)
deriving DecidableEq

/-- HTTP status, response body, and number of generator invocations. -/
structure HandlerResult where
  status : Nat
  body : RespBody
  genCalls : Nat
deriving DecidableEq

/-- The `create_wordcloud` route handler. -/
def create_wordcloud (gen : Unit → Except String (Option String))
    (data : Option ReqData) : HandlerResult :=
  match data with
  | none => { status := 400, body := .err "No data provided", genCalls := 0 }
  | some d =>
    let lyrics := d.lyrics.getD ""
    let colors := d.colors.getD []
    if lyrics = "" then
      { status := 400, body := .err "Lyrics text is required", genCalls := 0 }
    else if colors = [] then
      { status := 400, body := .err "Colors array is required", genCalls := 0 }
    else
      match gen () with
      | .error e => { status := 500, body := .err e, genCalls := 1 }
      | .ok none =>
        -- `if not image_base64` is truthy falsehood: `None` ...
        { status := 500, body := .err "Failed to generate word cloud", genCalls := 1 }
      | .ok (some image_base64) =>
        -- ... or the empty string.
        if image_base64 = "" then
          { status := 500, body := .err "Failed to generate word cloud", genCalls := 1 }
        else
          { status := 200
            body := .ok true ("data:image/png;base64," ++ image_base64)
            genCalls := 1 }

/-! ### Icon generator (create-spotify-icons.py)

PIL drawing calls are recorded as a command list; coordinates computed
from `size` with Python float arithmetic are modelled as exact rationals.
Python `//` on nonnegative ints is `Int.fdiv`. -/

def SPOTIFY_GREEN : String := "#1DB954"
def SPOTIFY_WHITE : String := "#FFFFFF"

inductive DrawCmd where
  | ellipse (x0 y0 x1 y1 : ℚ) (fill : String)
  | rectangle (x0 y0 x1 y1 : ℚ) (fill : String)
  | arc (x0 y0 x1 y1 : ℚ) (start stop : Int) (fill : String) (width : Int)
deriving DecidableEq

/-- A PIL image created by `Image.new(mode, (w, h), ...)` together with
the drawing commands applied to it; the draw calls never change the mode
or the dimensions. -/
structure IconImage where
  mode : String
  w : Int
  h : Int
  cmds : List DrawCmd
deriving DecidableEq

/-- `create_spotify_icon(size)` (lines 22-115). -/
def create_spotify_icon (size : Int) : IconImage :=
  let margin : Int := max 1 (Int.fdiv size 32)
  let center_x : ℚ := (size : ℚ) / 2
  let center_y : ℚ := (size : ℚ) / 2
  let line_width : Int := max 2 (Int.fdiv size 16)
  let circle := DrawCmd.ellipse (margin : ℚ) (margin : ℚ)
    ((size - margin : Int) : ℚ) ((size - margin : Int) : ℚ) SPOTIFY_GREEN
  let shapes :=
    if size ≤ 16 then
      let note_size : ℚ := (size : ℚ) * (2/5)
      [DrawCmd.ellipse (center_x - note_size * (3/10)) (center_y - note_size * (3/20))
         (center_x + note_size * (3/10)) (center_y + note_size * (3/20)) SPOTIFY_WHITE,
       DrawCmd.rectangle (center_x + note_size * (1/5)) (center_y - note_size * (3/20))
         (center_x + note_size * (1/5) + (line_width : ℚ)) (center_y + note_size * (2/5))
         SPOTIFY_WHITE]
    else
      let spacing : ℚ := (size : ℚ) * (3/25)
      let line_height : ℚ := (size : ℚ) * (3/20)
      [DrawCmd.arc (center_x - spacing * (3/2)) (center_y - spacing - line_height * (1/2))
         (center_x - spacing * (1/2)) (center_y - spacing + line_height * (1/2))
         0 180 SPOTIFY_WHITE line_width,
       DrawCmd.arc (center_x - spacing * (1/2)) (center_y - line_height * (1/2))
         (center_x + spacing * (1/2)) (center_y + line_height * (1/2))
         0 180 SPOTIFY_WHITE line_width,
       DrawCmd.arc (center_x + spacing * (1/2)) (center_y + spacing - line_height * (1/2))
         (center_x + spacing * (3/2)) (center_y + spacing + line_height * (1/2))
         0 180 SPOTIFY_WHITE line_width]
  { mode := "RGBA", w := size, h := size, cmds := circle :: shapes }

/-- `os.path.join(dir, name)` for an absolute directory and a bare
file name. -/
def pathJoin (dir name : String) : String := dir ++ "/" ++ name

/-- The sizes requested by `main()` (line 118). -/
def iconSizes : List Int := [16, 48, 128]

/-- `main()` (lines 117-127): the files it saves — path and image — in
order. `output_dir` is the script's directory. -/
def iconMainOutputs (output_dir : String) : List (String × IconImage) :=
  iconSizes.map fun size =>
    (pathJoin output_dir ("icon" ++ toString size ++ ".png"), create_spotify_icon size)

/-! ### Helper lemmas -/

/-- Unfolding `rgbColorsOf`: a successful parse has the palette's length
and is the pointwise `hex_to_rgb` image of the palette. -/
theorem rgbColorsOf_spec (colors : List String) (rgbs : List (Nat × Nat × Nat))
    (h : rgbColorsOf colors = some rgbs) :
    rgbs.length = colors.length ∧ ∀ i : Nat, rgbs[i]? = colors[i]?.bind hex_to_rgb := by
  induction colors generalizing rgbs with
  | nil =>
    simp only [rgbColorsOf, List.mapM_nil, pure, Option.some.injEq] at h
    subst h
    simp
  | cons c cs ih =>
    simp only [rgbColorsOf, List.mapM_cons, bind, Option.bind_eq_some, pure,
      Option.some.injEq] at h
    obtain ⟨r, hr, rs, hrs, hcons⟩ := h
    subst hcons
    obtain ⟨ihlen, ihget⟩ := ih rs hrs
    refine ⟨by simp [ihlen], fun i => ?_⟩
    cases i with
    | zero => simpa using hr.symm
    | succ n => simpa using ihget n

/-- Indexing a list by every position in order reproduces the list. -/
theorem range_map_index (l : List (Nat × Nat × Nat)) :
    (List.range l.length).map (fun i => l[i]?) = l.map some := by
  induction l using List.reverseRecOn with
  | nil => simp
  | append_singleton xs a ih =>
    rw [List.length_append, List.length_singleton, List.range_succ, List.map_append,
      List.map_append]
    congr 1
    · rw [← ih]
      refine List.map_congr_left fun i hi => ?_
      have hlt : i < xs.length := List.mem_range.mp hi
      rw [List.getElem?_append_left hlt]
    · simp [List.getElem?_concat_length xs a]

/-! ### Claim theorems -/

/-- C10: with empty `lyrics_text` or an empty `colors` list,
`generate_wordcloud` returns `None` immediately: the layout routine is
never invoked, no file is saved, and no image is produced, whatever
`return_base64` and `output_path` are. -/
theorem generate_wordcloud_empty_input (env : WCEnv)
    (lyrics_text : String) (colors : List String) (width height : Int)
    (background_color : String) (max_words : Int) (relative_scaling : ℚ)
    (colormap : Option String) (output_path : Option String) (return_base64 : Bool)
    (h : lyrics_text = "" ∨ colors = []) :
    generate_wordcloud env lyrics_text colors width height background_color
        max_words relative_scaling colormap output_path return_base64 =
      { layoutCalls := [], image := none, savedTo := none, ret := none } := by
  simp only [generate_wordcloud, if_pos h]

/-- Closed instance of `generate_wordcloud_empty_input` at empty lyrics,
with a save path and base64 output requested. -/
theorem generate_wordcloud_empty_input_witness :
    generate_wordcloud
        { fontPath := none, layout := fun _ _ => ⟨4, 3, fun _ _ => ⟨0, 0, 0⟩⟩
          pngBytes := fun _ => [], b64encode := fun _ => "QUJD" }
        "" ["#1DB954"] 1920 1080 "rgba(0,0,0,0)" 200 (1/2) none (some "out.png") true =
      { layoutCalls := [], image := none, savedTo := none, ret := none } :=
  generate_wordcloud_empty_input _ _ _ _ _ _ _ _ _ _ _ (Or.inl rfl)

/-- C8: `create_spotify_icon` is deterministic — its output depends only
on the `size` argument, so two calls with equal size produce identical
images. -/
theorem create_spotify_icon_deterministic (size : Int) (img1 img2 : IconImage)
    (h1 : create_spotify_icon size = img1) (h2 : create_spotify_icon size = img2) :
    img1 = img2 :=
  h1.symm.trans h2

/-- Closed instance of `create_spotify_icon_deterministic` at size 128. -/
theorem create_spotify_icon_deterministic_witness :
    create_spotify_icon 128 = create_spotify_icon 128 :=
  create_spotify_icon_deterministic 128 _ _ rfl rfl

/-- C9: the icon generator's `main` saves exactly three files, named
`icon16.png`, `icon48.png` and `icon128.png` in the script's directory,
and the image for size `s` is an RGBA image of exactly `s` by `s`
pixels. -/
theorem icon_main_outputs_spec (output_dir : String) :
    (iconMainOutputs output_dir).length = 3 ∧
    (iconMainOutputs output_dir).map Prod.fst =
      [pathJoin output_dir "icon16.png", pathJoin output_dir "icon48.png",
       pathJoin output_dir "icon128.png"] ∧
    (iconMainOutputs output_dir).map (fun p => (p.2.mode, p.2.w, p.2.h)) =
      [("RGBA", (16 : Int), (16 : Int)), ("RGBA", 48, 48), ("RGBA", 128, 128)] := by
  have h16 : ("icon" ++ toString (16 : Int) ++ ".png") = "icon16.png" := rfl
  have h48 : ("icon" ++ toString (48 : Int) ++ ".png") = "icon48.png" := rfl
  have h128 : ("icon" ++ toString (128 : Int) ++ ".png") = "icon128.png" := rfl
  refine ⟨rfl, ?_, ?_⟩ <;>
    simp [iconMainOutputs, iconSizes, pathJoin, create_spotify_icon, h16, h48, h128]

/-- C7: `find_system_font` follows the fixed fallback chain of the spec —
local Roboto-Bold file, then the ordered Roboto candidate list, then the
download, then the OS-specific fallback list — and returns `None` exactly
when every stage fails. -/
theorem find_system_font_fallback_chain (env : FontEnv) :
    find_system_font env = specFontChain env ∧
    (find_system_font env = none ↔
      env.pathExists env.localRobotoBold = false ∧
      (∀ p ∈ robotoPaths env, env.pathExists p = false) ∧
      env.downloadOk = false ∧
      ∀ p ∈ osFallbackPaths env.system, env.pathExists p = false) := by
  cases h1 : env.pathExists env.localRobotoBold with
  | true => simp [find_system_font, specFontChain, h1, Option.orElse]
  | false =>
    cases h2 : (robotoPaths env).find? env.pathExists with
    | some p =>
      have hp : env.pathExists p = true := List.find?_some h2
      have hmem : p ∈ robotoPaths env := List.mem_of_find?_eq_some h2
      constructor
      · simp [find_system_font, specFontChain, h1, h2, Option.orElse]
      · simp only [find_system_font, h1, h2, Bool.false_eq_true, if_false]
        constructor
        · intro hcontra
          exact absurd hcontra (by simp)
        · rintro ⟨-, hall, -, -⟩
          exact absurd (hall p hmem) (by simp [hp])
    | none =>
      have h2' : ∀ p ∈ robotoPaths env, env.pathExists p = false := by
        intro p hpmem
        simpa using List.find?_eq_none.mp h2 p hpmem
      cases h3 : env.downloadOk with
      | true =>
        constructor
        · simp [find_system_font, specFontChain, h1, h2, h3, Option.orElse]
        · simp [find_system_font, h1, h2, h3]
      | false =>
        constructor
        · simp [find_system_font, specFontChain, h1, h2, h3, Option.orElse]
        · simp only [find_system_font, h1, h2, h3, Bool.false_eq_true, if_false]
          rw [List.find?_eq_none]
          constructor
          · intro hall
            exact ⟨trivial, h2', trivial, fun p hpmem => by simpa using hall p hpmem⟩
          · rintro ⟨-, -, -, hall⟩ p hpmem
            simp [hall p hpmem]

/-- Unfolding `generate_wordcloud` in the non-degenerate case. -/
theorem generate_wordcloud_nonempty (env : WCEnv)
    (lyrics_text : String) (colors : List String) (width height : Int)
    (background_color : String) (max_words : Int) (relative_scaling : ℚ)
    (colormap : Option String) (output_path : Option String) (return_base64 : Bool)
    (hl : lyrics_text ≠ "") (hc : colors ≠ []) :
    generate_wordcloud env lyrics_text colors width height background_color
        max_words relative_scaling colormap output_path return_base64 =
      (let makeTransparentFlag :=
        strStartsWith background_color "rgba" && strContains background_color "0,0,0,0"
      let params : WCParams :=
        { width := width, height := height
          background_color :=
            if makeTransparentFlag then "black" else solidBgColor background_color
          max_words := max_words, relative_scaling := relative_scaling
          paletteColors := colors
          prefer_horizontal := 3/5, min_font_size := 40, max_font_size := 300
          font_step := 4, margin := 0, collocations := false
          normalize_plurals := true, repeatWords := true
          font_path := env.fontPath }
      let image :=
        if makeTransparentFlag then
          PILImage.rgba (makeTransparent (env.layout params lyrics_text.trim))
        else PILImage.rgb (env.layout params lyrics_text.trim)
      { layoutCalls := [(params, lyrics_text.trim)]
        image := some image
        savedTo := output_path
        ret := if return_base64 then some (env.b64encode (env.pngBytes image))
               else none }) := by
  have h : ¬(lyrics_text = "" ∨ colors = []) := by
    rintro (h | h)
    · exact hl h
    · exact hc h
  simp only [generate_wordcloud, if_neg h]

/-- Componentwise description of `makeTransparent`: R, G, B are
unchanged, alpha is 0 exactly on near-black pixels and 255 elsewhere. -/
theorem makeTransparent_pixel (img : RGBImage) (x y : Nat) :
    ((makeTransparent img).pix x y).r = (img.pix x y).r ∧
    ((makeTransparent img).pix x y).g = (img.pix x y).g ∧
    ((makeTransparent img).pix x y).b = (img.pix x y).b ∧
    (((makeTransparent img).pix x y).a = 0 ↔
      ((img.pix x y).r < 10 ∧ (img.pix x y).g < 10 ∧ (img.pix x y).b < 10)) ∧
    (((makeTransparent img).pix x y).a = 0 ∨ ((makeTransparent img).pix x y).a = 255) := by
  have ha : ((makeTransparent img).pix x y).a =
      if ((img.pix x y).r < 10 ∧ (img.pix x y).g < 10 ∧ (img.pix x y).b < 10)
      then 0 else 255 := by
    simp [makeTransparent, blackMask, Bool.and_eq_true, decide_eq_true_eq, and_assoc]
  refine ⟨rfl, rfl, rfl, ?_, ?_⟩
  · rw [ha]
    split
    · rename_i h
      simp [h]
    · rename_i h
      simp [h]
  · rw [ha]
    split
    · exact Or.inl rfl
    · exact Or.inr rfl

/-- A concrete environment for instantiating the `generate_wordcloud`
theorems: the layout routine yields a constant all-black 4×3 image. -/
def testWCEnv : WCEnv :=
  { fontPath := none
    layout := fun _ _ => ⟨4, 3, fun _ _ => ⟨0, 0, 0⟩⟩
    pngBytes := fun _ => []
    b64encode := fun _ => "QUJD" }

/-- C1: when the transparent-background post-processing runs (the
`background_color` triggers masking), the produced image is the layout
image with an alpha channel appended: alpha is 0 exactly when R, G and B
are all below 10, alpha is 255 on every other pixel, and R, G, B are
unchanged. -/
theorem generate_wordcloud_transparent_masking (env : WCEnv)
    (lyrics_text : String) (colors : List String) (width height : Int)
    (background_color : String) (max_words : Int) (relative_scaling : ℚ)
    (colormap : Option String) (output_path : Option String) (return_base64 : Bool)
    (hl : lyrics_text ≠ "") (hc : colors ≠ [])
    (hbg : (strStartsWith background_color "rgba" &&
      strContains background_color "0,0,0,0") = true) :
    ∃ img0 : RGBImage,
      (generate_wordcloud env lyrics_text colors width height background_color
          max_words relative_scaling colormap output_path return_base64).image =
        some (PILImage.rgba (makeTransparent img0)) ∧
      ∀ x y : Nat,
        ((makeTransparent img0).pix x y).r = (img0.pix x y).r ∧
        ((makeTransparent img0).pix x y).g = (img0.pix x y).g ∧
        ((makeTransparent img0).pix x y).b = (img0.pix x y).b ∧
        (((makeTransparent img0).pix x y).a = 0 ↔
          ((img0.pix x y).r < 10 ∧ (img0.pix x y).g < 10 ∧ (img0.pix x y).b < 10)) ∧
        (((makeTransparent img0).pix x y).a = 0 ∨
          ((makeTransparent img0).pix x y).a = 255) := by
  rw [generate_wordcloud_nonempty env lyrics_text colors width height background_color
    max_words relative_scaling colormap output_path return_base64 hl hc]
  simp only [hbg, if_true]
  exact ⟨_, rfl, fun x y => makeTransparent_pixel _ x y⟩

/-- Closed instance of `generate_wordcloud_transparent_masking` for a
transparent-background request against the constant-image layout. -/
theorem generate_wordcloud_transparent_masking_witness :
    ∃ img0 : RGBImage,
      (generate_wordcloud testWCEnv "la la" ["#1DB954"] 1920 1080 "rgba(0,0,0,0)"
          200 (1/2) none none true).image =
        some (PILImage.rgba (makeTransparent img0)) ∧
      ∀ x y : Nat,
        ((makeTransparent img0).pix x y).r = (img0.pix x y).r ∧
        ((makeTransparent img0).pix x y).g = (img0.pix x y).g ∧
        ((makeTransparent img0).pix x y).b = (img0.pix x y).b ∧
        (((makeTransparent img0).pix x y).a = 0 ↔
          ((img0.pix x y).r < 10 ∧ (img0.pix x y).g < 10 ∧ (img0.pix x y).b < 10)) ∧
        (((makeTransparent img0).pix x y).a = 0 ∨
          ((makeTransparent img0).pix x y).a = 255) :=
  generate_wordcloud_transparent_masking testWCEnv "la la" ["#1DB954"] 1920 1080
    "rgba(0,0,0,0)" 200 (1/2) none none true (by decide) (by decide) (by decide)

/-- C2: the background-to-transparent conversion runs if and only if
`background_color` starts with `rgba` and contains `0,0,0,0`; in that
case the layout is rendered on a `black` background and the result is the
masked RGBA image, and in every other case the result is the layout's RGB
image with no alpha channel added. -/
theorem generate_wordcloud_transparency_condition (env : WCEnv)
    (lyrics_text : String) (colors : List String) (width height : Int)
    (background_color : String) (max_words : Int) (relative_scaling : ℚ)
    (colormap : Option String) (output_path : Option String) (return_base64 : Bool)
    (hl : lyrics_text ≠ "") (hc : colors ≠ []) :
    ((strStartsWith background_color "rgba" &&
        strContains background_color "0,0,0,0") = true →
      ∃ p t, (generate_wordcloud env lyrics_text colors width height background_color
          max_words relative_scaling colormap output_path return_base64).layoutCalls =
            [(p, t)] ∧
        p.background_color = "black" ∧
        (generate_wordcloud env lyrics_text colors width height background_color
          max_words relative_scaling colormap output_path return_base64).image =
            some (PILImage.rgba (makeTransparent (env.layout p t)))) ∧
    ((strStartsWith background_color "rgba" &&
        strContains background_color "0,0,0,0") = false →
      ∃ p t, (generate_wordcloud env lyrics_text colors width height background_color
          max_words relative_scaling colormap output_path return_base64).layoutCalls =
            [(p, t)] ∧
        (generate_wordcloud env lyrics_text colors width height background_color
          max_words relative_scaling colormap output_path return_base64).image =
            some (PILImage.rgb (env.layout p t))) := by
  rw [generate_wordcloud_nonempty env lyrics_text colors width height background_color
    max_words relative_scaling colormap output_path return_base64 hl hc]
  constructor
  · intro hflag
    simp only [hflag, if_true]
    exact ⟨_, _, rfl, rfl, rfl⟩
  · intro hflag
    simp only [hflag, Bool.false_eq_true, if_false]
    exact ⟨_, _, rfl, rfl⟩

/-- Closed instance of `generate_wordcloud_transparency_condition`: the
default transparent background triggers masking over a black render. -/
theorem generate_wordcloud_transparency_condition_witness :
    ∃ p t,
      (generate_wordcloud testWCEnv "la la" ["#1DB954"] 1920 1080 "rgba(0,0,0,0)"
          200 (1/2) none none true).layoutCalls = [(p, t)] ∧
      p.background_color = "black" ∧
      (generate_wordcloud testWCEnv "la la" ["#1DB954"] 1920 1080 "rgba(0,0,0,0)"
          200 (1/2) none none true).image =
        some (PILImage.rgba (makeTransparent (testWCEnv.layout p t))) :=
  (generate_wordcloud_transparency_condition testWCEnv "la la" ["#1DB954"] 1920 1080
    "rgba(0,0,0,0)" 200 (1/2) none none true (by decide) (by decide)).1 (by decide)

/-- C5: with non-empty lyrics and colors, the layout routine is invoked
exactly once, with the fixed tuning parameters of the source and the
caller's `width`, `height`, `max_words` and `relative_scaling` passed
through unchanged. (`0.6` and `0.5` are the rationals `3/5`, `1/2`.) -/
theorem generate_wordcloud_layout_params (env : WCEnv)
    (lyrics_text : String) (colors : List String) (width height : Int)
    (background_color : String) (max_words : Int) (relative_scaling : ℚ)
    (colormap : Option String) (output_path : Option String) (return_base64 : Bool)
    (hl : lyrics_text ≠ "") (hc : colors ≠ []) :
    ∃ p t, (generate_wordcloud env lyrics_text colors width height background_color
        max_words relative_scaling colormap output_path return_base64).layoutCalls =
          [(p, t)] ∧
      p.prefer_horizontal = 3/5 ∧ p.min_font_size = 40 ∧ p.max_font_size = 300 ∧
      p.font_step = 4 ∧ p.margin = 0 ∧ p.collocations = false ∧
      p.normalize_plurals = true ∧ p.repeatWords = true ∧
      p.width = width ∧ p.height = height ∧ p.max_words = max_words ∧
      p.relative_scaling = relative_scaling := by
  rw [generate_wordcloud_nonempty env lyrics_text colors width height background_color
    max_words relative_scaling colormap output_path return_base64 hl hc]
  exact ⟨_, _, rfl, rfl, rfl, rfl, rfl, rfl, rfl, rfl, rfl, rfl, rfl, rfl, rfl⟩

/-- Closed instance of `generate_wordcloud_layout_params` with
non-default caller arguments, showing the pass-through. -/
theorem generate_wordcloud_layout_params_witness :
    ∃ p t,
      (generate_wordcloud testWCEnv "la la" ["#1DB954"] 640 480 "white"
          50 (1/4) none none false).layoutCalls = [(p, t)] ∧
      p.prefer_horizontal = 3/5 ∧ p.min_font_size = 40 ∧ p.max_font_size = 300 ∧
      p.font_step = 4 ∧ p.margin = 0 ∧ p.collocations = false ∧
      p.normalize_plurals = true ∧ p.repeatWords = true ∧
      p.width = 640 ∧ p.height = 480 ∧ p.max_words = 50 ∧
      p.relative_scaling = 1/4 :=
  generate_wordcloud_layout_params testWCEnv "la la" ["#1DB954"] 640 480 "white"
    50 (1/4) none none false (by decide) (by decide)

/-- C3: whenever the word-cloud generation step raises an exception `e`
(it only runs once the request validations pass), the handler returns
HTTP 500 with a JSON body whose `error` field is the string form of the
exception. -/
theorem create_wordcloud_exception_500 (gen : Unit → Except String (Option String))
    (d : ReqData) (e : String)
    (hl : d.lyrics.getD "" ≠ "") (hc : d.colors.getD [] ≠ [])
    (hg : gen () = .error e) :
    create_wordcloud gen (some d) =
      { status := 500, body := .err e, genCalls := 1 } := by
  simp only [create_wordcloud, if_neg hl, if_neg hc, hg]

/-- Closed instance of `create_wordcloud_exception_500` for a generator
that raises. -/
theorem create_wordcloud_exception_500_witness :
    create_wordcloud (fun _ => .error "font not found")
        (some { lyrics := some "la la", colors := some ["#1DB954"]
                width := none, height := none, max_words := none }) =
      { status := 500, body := .err "font not found", genCalls := 1 } :=
  create_wordcloud_exception_500 _ _ _ (by decide) (by decide) rfl

/-- C4: a missing body, missing/empty `lyrics`, or missing/empty `colors`
yields HTTP 400 with an `error` field and the generator is never invoked;
with non-empty lyrics and colors and a successful generation, the handler
returns `success: true` and an `image` field that is
`data:image/png;base64,` followed by the base64 PNG. (A successful
generation returns the base64 of a PNG byte buffer, which is never the
empty string; the `s ≠ ""` hypothesis records that.) -/
theorem create_wordcloud_validation_and_success
    (gen : Unit → Except String (Option String)) (data : Option ReqData) :
    ((data = none ∨
        ∃ d, data = some d ∧ (d.lyrics.getD "" = "" ∨ d.colors.getD [] = [])) →
      (create_wordcloud gen data).status = 400 ∧
      (∃ m, (create_wordcloud gen data).body = .err m) ∧
      (create_wordcloud gen data).genCalls = 0) ∧
    (∀ d s, data = some d → d.lyrics.getD "" ≠ "" → d.colors.getD [] ≠ [] →
      gen () = .ok (some s) → s ≠ "" →
      create_wordcloud gen data =
        { status := 200, body := .ok true ("data:image/png;base64," ++ s)
          genCalls := 1 }) := by
  constructor
  · rintro (hnone | ⟨d, hd, hbad⟩)
    · subst hnone
      exact ⟨rfl, ⟨_, rfl⟩, rfl⟩
    · subst hd
      rcases hbad with hbad | hbad
      · simp only [create_wordcloud, if_pos hbad]
        exact ⟨trivial, ⟨_, rfl⟩, trivial⟩
      · by_cases hl : d.lyrics.getD "" = ""
        · simp only [create_wordcloud, if_pos hl]
          exact ⟨trivial, ⟨_, rfl⟩, trivial⟩
        · simp only [create_wordcloud, if_neg hl, if_pos hbad]
          exact ⟨trivial, ⟨_, rfl⟩, trivial⟩
  · intro d s hd hl hc hg hs
    subst hd
    simp only [create_wordcloud, if_neg hl, if_neg hc, hg, if_neg hs]

/-- Closed instance of `create_wordcloud_validation_and_success`: a valid
request with a successful generation gets the data-URL response. -/
theorem create_wordcloud_validation_and_success_witness :
    create_wordcloud (fun _ => .ok (some "QUJD"))
        (some { lyrics := some "la la", colors := some ["#1DB954"]
                width := none, height := none, max_words := none }) =
      { status := 200, body := .ok true ("data:image/png;base64," ++ "QUJD")
        genCalls := 1 } :=
  (create_wordcloud_validation_and_success (fun _ => .ok (some "QUJD"))
      (some { lyrics := some "la la", colors := some ["#1DB954"]
              width := none, height := none, max_words := none })).2
    _ "QUJD" rfl (by decide) (by decide) rfl (by decide)

/-- C6: the color function returns, for the uniformly-drawn index `i`,
exactly the `hex_to_rgb` conversion of the `i`-th supplied hex color —
hence always a conversion of one of the supplied colors, independent of
word, font size, position and orientation — and the outputs across the
equally likely draws are exactly the converted palette entries, one draw
per entry, so each palette entry is equally likely. -/
theorem color_func_uniform_palette (colors : List String)
    (rgbs : List (Nat × Nat × Nat)) (h : rgbColorsOf colors = some rgbs)
    (word : String) (fontSize : Int) (position : Int × Int) (orientation : Int)
    (i : Nat) (hi : i < rgbs.length) :
    (∃ c ∈ colors, color_func rgbs word fontSize position orientation i = hex_to_rgb c) ∧
    color_func rgbs word fontSize position orientation i = colors[i]?.bind hex_to_rgb ∧
    (List.range rgbs.length).map (color_func rgbs word fontSize position orientation) =
      rgbs.map some := by
  obtain ⟨hlen, hget⟩ := rgbColorsOf_spec colors rgbs h
  have hic : i < colors.length := hlen ▸ hi
  refine ⟨?_, ?_, ?_⟩
  · refine ⟨colors.get ⟨i, hic⟩, List.get_mem colors i hic, ?_⟩
    have hsome : colors[i]? = some (colors.get ⟨i, hic⟩) := by
      simp [List.getElem?_eq_getElem hic, List.get_eq_getElem]
    show rgbs[i]? = _
    rw [hget i, hsome]
    rfl
  · exact hget i
  · exact range_map_index rgbs

/-- Closed instance of `color_func_uniform_palette` on a two-color
palette, drawing the second entry. -/
theorem color_func_uniform_palette_witness :
    (∃ c ∈ ["#1DB954", "#FFFFFF"],
      color_func [(29, 185, 84), (255, 255, 255)] "word" 40 (0, 0) 0 1 = hex_to_rgb c) ∧
    color_func [(29, 185, 84), (255, 255, 255)] "word" 40 (0, 0) 0 1 =
      ["#1DB954", "#FFFFFF"][1]?.bind hex_to_rgb ∧
    (List.range (List.length [(29, 185, 84), (255, 255, 255)])).map
        (color_func [(29, 185, 84), (255, 255, 255)] "word" 40 (0, 0) 0) =
      [(29, 185, 84), (255, 255, 255)].map some :=
  color_func_uniform_palette ["#1DB954", "#FFFFFF"] [(29, 185, 84), (255, 255, 255)]
    (by decide) "word" 40 (0, 0) 0 1 (by decide)

end SpotifyLyrics
